import Mathlib

/-!
Verification of the short-term conversational-memory layer of the smartrag
backend (session manager, session cache with in-memory fallback, durable
conversation store, summarization rollover).

The Python source is shallowly embedded: every definition below is a direct
translation of the corresponding function in
`backend/app/services/session_manager.py`,
`backend/app/services/conversation_service.py`,
`backend/app/services/summary_service.py` and
`backend/app/utils/redis_client.py`.

Modelling conventions:
* `datetime` values are abstract instants represented as `Nat`; the
  ISO-8601 `isoformat` / `fromisoformat` round trip (which is exact in
  Python at microsecond precision) is modelled as the identity on these
  abstract instants.
* Python `float` importance scores are exact multiples of 0.1 in the
  source, so they are represented in tenths as `Nat` (1.0 = 10, cap 2.0 = 20).
* JSON encode/decode of a session dict (`json.dumps` / `json.loads`) is
  modelled at the semantic level: cache values carry the dict itself.
* External effects (the wall clock, the uuid, Redis connection errors,
  database write failures, the summarizer LLM) are supplied through an
  explicit environment `Env`; a `none` LLM result models a failed
  summarizer call, a `true` failure flag models the corresponding
  exception being raised by the collaborator.
-/

set_option autoImplicit false

namespace SmartRag

/-- Abstract timestamps. `datetime.isoformat` is modelled as the identity on
abstract instants (the Python round trip is exact). -/
def isoformat (t : Nat) : Nat := t

/-- Inverse of `isoformat` (`datetime.fromisoformat`). -/
def fromisoformat (t : Nat) : Nat := t

/-- Embeds the `ChatMessage` dataclass of `session_manager.py`. -/
structure ChatMessage where
  role : String
  content : String
  timestamp : Nat
  tokens : Int := 0
  importance : Nat := 10
deriving DecidableEq, Repr

/-- Embeds the `UserSession` dataclass of `session_manager.py`. -/
structure UserSession where
  user_id : Int
  conversation_id : String
  messages : List ChatMessage
  total_tokens : Int
  last_activity : Nat
  max_tokens : Int := 4000
  max_rounds : Nat := 10
  summary : Option String := none
deriving DecidableEq, Repr

/-- Embeds `UserSession.get_history`: role/content pairs of the window. -/
def UserSession.get_history (s : UserSession) : List (String × String) :=
  s.messages.map (fun m => (m.role, m.content))

/-- Embeds `UserSession.get_rounds`: the number of user-role messages in the
in-memory window. -/
def UserSession.get_rounds (s : UserSession) : Nat :=
  (s.messages.filter (fun m => m.role == "user")).length

/-- Serialized form of one message as produced by `UserSession.to_dict`. -/
structure MsgDict where
  role : String
  content : String
  timestamp : Nat
  tokens : Int
  importance : Nat
deriving DecidableEq, Repr

/-- Serialized form of a session as produced by `UserSession.to_dict`
(`to_dict` always emits every key, so all fields are present). -/
structure SessionDict where
  user_id : Int
  conversation_id : String
  messages : List MsgDict
  total_tokens : Int
  last_activity : Nat
  max_tokens : Int
  max_rounds : Nat
  summary : Option String
deriving DecidableEq, Repr

/-- Embeds `UserSession.to_dict`. -/
def UserSession.to_dict (s : UserSession) : SessionDict :=
  { user_id := s.user_id
    conversation_id := s.conversation_id
    messages := s.messages.map (fun m =>
      { role := m.role
        content := m.content
        timestamp := isoformat m.timestamp
        tokens := m.tokens
        importance := m.importance })
    total_tokens := s.total_tokens
    last_activity := isoformat s.last_activity
    max_tokens := s.max_tokens
    max_rounds := s.max_rounds
    summary := s.summary }

/-- Embeds `UserSession.from_dict`. -/
def UserSession.from_dict (d : SessionDict) : UserSession :=
  { user_id := d.user_id
    conversation_id := d.conversation_id
    messages := d.messages.map (fun m =>
      { role := m.role
        content := m.content
        timestamp := fromisoformat m.timestamp
        tokens := m.tokens
        importance := m.importance })
    total_tokens := d.total_tokens
    last_activity := fromisoformat d.last_activity
    max_tokens := d.max_tokens
    max_rounds := d.max_rounds
    summary := d.summary }

/-- Deserialization undoes serialization, message by message and field by
field. Shared helper used by the round-trip claim and by the cache
fallback claim. -/
theorem from_dict_to_dict (s : UserSession) :
    UserSession.from_dict (UserSession.to_dict s) = s := by
  cases s with
  | mk uid cid msgs tt la mt mr sm =>
    simp [UserSession.from_dict, UserSession.to_dict, isoformat, fromisoformat]
    induction msgs with
    | nil => rfl
    | cons m rest ih => cases m; simpa using ih

/-- External effects consumed during one session-manager call: the wall
clock, the generated uuid hex, whether the Redis backend raises on `get` /
`setex`, whether the database insert in `ConversationService.save_message`
raises (rolled back internally), whether the surrounding
`get_db_context` commit raises, and the summarizer LLM result (`none`
models a failed `chat.completions.create` call). -/
structure Env where
  now : Nat
  uuidHex : String := "0123456789abcdef"
  redisGetFails : Bool := false
  redisSetexFails : Bool := false
  dbSaveMessageFails : Bool := false
  dbCommitFails : Bool := false
  llmSummary : Option String := none
deriving DecidableEq, Repr

/-- Association-list lookup, first match wins (Python dict read). -/
def alookup {α : Type} : List (String × α) → String → Option α
  | [], _ => none
  | p :: t, k => if p.1 == k then some p.2 else alookup t k

/-- Association-list overwrite (Python dict assignment): the old entries for
the key are dropped and the new binding is added. -/
def aset {α : Type} (l : List (String × α)) (k : String) (v : α) :
    List (String × α) :=
  (k, v) :: l.filter (fun p => !(p.1 == k))

/-- One entry of the real Redis backend: the stored serialized session and
the absolute instant at which the backend expires it (`setex` ttl). -/
structure CacheEntry where
  value : SessionDict
  expiresAt : Nat
deriving DecidableEq, Repr

/-- Embeds the state of `RedisClient` in `redis_client.py`: whether the real
backend is in use, the backend key space, and the in-process fallback map
with its manual expiry bookkeeping. -/
structure RedisClient where
  use_redis : Bool
  redis_store : List (String × CacheEntry) := []
  memory_cache : List (String × SessionDict) := []
  memory_cache_expiry : List (String × Nat) := []
deriving DecidableEq, Repr

/-- Embeds `RedisClient._cleanup_expired_memory_cache`: drop every fallback
entry whose recorded expiry is strictly before the current time. -/
def RedisClient.cleanup_expired_memory_cache (c : RedisClient) (now : Nat) :
    RedisClient :=
  let expired := (c.memory_cache_expiry.filter (fun p => p.2 < now)).map
    (fun p => p.1)
  let mem := c.memory_cache.filter (fun p => !(expired.contains p.1))
  let exp := c.memory_cache_expiry.filter (fun p => !(p.2 < now))
  { c with memory_cache := mem, memory_cache_expiry := exp }

/-- Embeds `RedisClient.get`: consult the real backend when it is in use;
when the backend call raises (`fails`), or when the backend is not in use,
purge expired fallback entries and read the fallback map. A backend read
past the entry's ttl returns absent. Connection errors are caught inside
this method and never escape. -/
def RedisClient.get (c : RedisClient) (fails : Bool) (now : Nat)
    (key : String) : Option SessionDict × RedisClient :=
  if c.use_redis then
    if fails then
      let c' := c.cleanup_expired_memory_cache now
      (alookup c'.memory_cache key, c')
    else
      (match alookup c.redis_store key with
       | some e => if now < e.expiresAt then some e.value else none
       | none => none, c)
  else
    let c' := c.cleanup_expired_memory_cache now
    (alookup c'.memory_cache key, c')

/-- Embeds `RedisClient.setex`: write to the real backend when it is in use
and the call does not raise; otherwise store the parsed value in the
fallback map, record its expiry and purge expired entries. Connection
errors are caught inside this method and never escape. -/
def RedisClient.setex (c : RedisClient) (fails : Bool) (now : Nat)
    (key : String) (ttl : Nat) (value : SessionDict) : RedisClient :=
  if c.use_redis && !fails then
    { c with redis_store := aset c.redis_store key ⟨value, now + ttl⟩ }
  else
    let c' := { c with
      memory_cache := aset c.memory_cache key value
      memory_cache_expiry := aset c.memory_cache_expiry key (now + ttl) }
    c'.cleanup_expired_memory_cache now

/-- Embeds the `MessageRole` enum of `models/conversation.py`. -/
inductive MessageRole where
  | user
  | assistant
  | system
deriving DecidableEq, Repr

/-- Embeds the durable `Conversation` record of `models/conversation.py`. -/
structure Conversation where
  id : String
  user_id : Int
  title : String
  summary : Option String := none
  message_count : Int := 0
  total_tokens : Int := 0
  is_active : Bool := true
  is_deleted : Bool := false
  deleted_at : Option Nat := none
  created_at : Nat := 0
  updated_at : Nat := 0
deriving DecidableEq, Repr

/-- Embeds the durable `ConversationMessage` record (append-only log). -/
structure ConversationMessage where
  conversation_id : String
  message_id : String
  role : MessageRole
  content : String
  tokens : Int := 0
  importance : Nat := 10
  created_at : Nat := 0
deriving DecidableEq, Repr

/-- The durable store: conversation records plus the append-only message
log. -/
structure DbState where
  conversations : List Conversation := []
  messages : List ConversationMessage := []
deriving DecidableEq, Repr

/-- Embeds `ConversationService.get_conversation`: first conversation with
the given id that is not soft-deleted. -/
def ConversationService.get_conversation (db : DbState) (cid : String) :
    Option Conversation :=
  db.conversations.find? (fun c => c.id == cid && !c.is_deleted)

/-- Embeds `ConversationService.update_conversation_title`: look the
conversation up (excluding soft-deleted rows); absent means no change and
`none`; otherwise overwrite the title and `updated_at`. -/
def ConversationService.update_conversation_title (db : DbState) (now : Nat)
    (cid : String) (title : String) : Option Conversation × DbState :=
  match ConversationService.get_conversation db cid with
  | none => (none, db)
  | some c =>
    let c' := { c with title := title, updated_at := now }
    let convs := db.conversations.map
      (fun x => if x.id == cid && !x.is_deleted
                then { x with title := title, updated_at := now }
                else x)
    (some c', { db with conversations := convs })

/-- Embeds `ConversationService.update_conversation_summary`. -/
def ConversationService.update_conversation_summary (db : DbState)
    (now : Nat) (cid : String) (summary : String) : Bool × DbState :=
  match ConversationService.get_conversation db cid with
  | none => (false, db)
  | some _ =>
    let convs := db.conversations.map
      (fun x => if x.id == cid && !x.is_deleted
                then { x with summary := some summary, updated_at := now }
                else x)
    (true, { db with conversations := convs })

/-- Embeds `ConversationService.update_conversation_stats`: overwrite the
durable counters. The session manager never calls this function; only the
router's save-message endpoint does. -/
def ConversationService.update_conversation_stats (db : DbState) (now : Nat)
    (cid : String) (message_count : Int) (total_tokens : Int) :
    Bool × DbState :=
  match ConversationService.get_conversation db cid with
  | none => (false, db)
  | some _ =>
    let convs := db.conversations.map
      (fun x => if x.id == cid && !x.is_deleted
                then { x with message_count := message_count,
                              total_tokens := total_tokens,
                              updated_at := now }
                else x)
    (true, { db with conversations := convs })

/-- Embeds `ConversationService.save_message`: insert one row into the
append-only message log; assistant rows are stamped one second after the
current instant. An internal database error (`dbSaveMessageFails`) is
caught, rolled back, and reported as `none`. -/
def ConversationService.save_message (env : Env) (db : DbState)
    (cid message_id : String) (role : MessageRole) (content : String)
    (tokens : Int) : Option ConversationMessage × DbState :=
  if env.dbSaveMessageFails then (none, db)
  else
    let m : ConversationMessage :=
      { conversation_id := cid
        message_id := message_id
        role := role
        content := content
        tokens := tokens
        importance := 10
        created_at := if role = MessageRole.user then env.now
                      else env.now + 1 }
    (some m, { db with messages := db.messages ++ [m] })

/-- Embeds `ConversationService.delete_conversation` (soft delete: the row
stays in the table with `is_deleted` set). -/
def ConversationService.delete_conversation (db : DbState) (now : Nat)
    (cid : String) : Bool × DbState :=
  match db.conversations.find? (fun c => c.id == cid) with
  | none => (false, db)
  | some _ =>
    let convs := db.conversations.map
      (fun x => if x.id == cid
                then { x with is_deleted := true,
                              deleted_at := some now,
                              updated_at := now }
                else x)
    (true, { db with conversations := convs })

/-- Embeds `SummaryService.generate_summary`. The LLM call result comes
from the environment; every exception is caught inside the method and
replaced by the old summary when that is truthy (a non-empty string) or by
the fixed failure text otherwise, so this method never raises. -/
def SummaryService.generate_summary (env : Env)
    (conversation_history : List (String × String))
    (old_summary : Option String) : String :=
  match env.llmSummary with
  | some s => s
  | none =>
    match old_summary with
    | some os => if os = "" then "对话摘要生成失败" else os
    | none => "对话摘要生成失败"

/-- Combined mutable state seen by `UserSessionManager`: the cache client
and the durable store. -/
structure SMState where
  cache : RedisClient
  db : DbState
deriving DecidableEq, Repr

/-- Embeds `UserSessionManager.conversation_exists` (database read errors
are caught and reported as absent; reads themselves are modelled as
reliable). -/
def UserSessionManager.conversation_exists (db : DbState) (cid : String) :
    Bool :=
  (ConversationService.get_conversation db cid).isSome

/-- Embeds `UserSessionManager.get_conversation_summary`. -/
def UserSessionManager.get_conversation_summary (db : DbState)
    (cid : String) : Option String :=
  match ConversationService.get_conversation db cid with
  | some c => c.summary
  | none => none

/-- Embeds `UserSessionManager.save_conversation_summary`. -/
def UserSessionManager.save_conversation_summary (env : Env) (db : DbState)
    (cid : String) (summary : String) : Bool × DbState :=
  ConversationService.update_conversation_summary db env.now cid summary

/-- Cache key for a conversation (`conversation:` followed by the id). -/
def sessionKey (cid : String) : String :=
  "conversation:" ++ cid

/-- Embeds `UserSessionManager.save_user_session`: serialize the session
and `setex` it with the 600-second sliding ttl. Any cache exception is
caught and logged, so this never raises. -/
def UserSessionManager.save_user_session (env : Env) (c : RedisClient)
    (s : UserSession) : RedisClient :=
  c.setex env.redisSetexFails env.now (sessionKey s.conversation_id) 600
    s.to_dict

/-- Embeds `UserSessionManager.get_user_session`. An empty conversation id
raises `ValueError`; a cache hit is deserialized, its `last_activity`
refreshed and written back; a cache miss checks existence in the durable
store (raising `ValueError` when absent or soft-deleted) and returns a
fresh empty-window session carrying the durable summary, without writing
it to the cache. -/
def UserSessionManager.get_user_session (env : Env) (st : SMState)
    (user_id : Int) (cid : String) :
    Except String (UserSession × SMState) :=
  if cid = "" then .error "conversation_id 不能为空"
  else
    match st.cache.get env.redisGetFails env.now (sessionKey cid) with
    | (some d, c₁) =>
      let s := { UserSession.from_dict d with last_activity := env.now }
      let c₂ := UserSessionManager.save_user_session env c₁ s
      .ok (s, { st with cache := c₂ })
    | (none, c₁) =>
      if UserSessionManager.conversation_exists st.db cid then
        let summary := UserSessionManager.get_conversation_summary st.db cid
        .ok ({ user_id := user_id
               conversation_id := cid
               messages := []
               total_tokens := 0
               last_activity := env.now
               max_tokens := 4000
               max_rounds := 10
               summary := summary },
             { st with cache := c₁ })
      else .error ("会话 " ++ cid ++ " 不存在")

/-- Embeds the role translation table of
`UserSessionManager._save_message_to_db`: `user` maps to the durable user
role, `model` and `assistant` map to the durable assistant role, and every
other string falls back to the durable user role. -/
def UserSessionManager.role_map (role : String) : MessageRole :=
  if role = "user" then .user
  else if role = "model" then .assistant
  else if role = "assistant" then .assistant
  else .user

/-- Embeds `UserSessionManager._save_message_to_db`: translate the role and
insert the row inside a `get_db_context` transaction. A commit failure is
caught here (rolled back, returning `false`); an insert failure was
already caught inside `ConversationService.save_message`, whose return
value is ignored, so that path still returns `true`. Nothing raises out of
this method. -/
def UserSessionManager.save_message_to_db (env : Env) (db : DbState)
    (cid message_id : String) (role content : String) (tokens : Int) :
    Bool × DbState :=
  let message_role := UserSessionManager.role_map role
  if env.dbCommitFails then (false, db)
  else
    let r := ConversationService.save_message env db cid message_id
      message_role content tokens
    (true, r.2)

/-- Title computed by `UserSessionManager._update_conversation_title`: the
first 30 characters of the first user message, with an ellipsis marker when
truncated. -/
def truncateTitle (first_message : String) : String :=
  if first_message.length > 30 then first_message.take 30 ++ "..."
  else first_message

/-- Embeds `UserSessionManager._update_conversation_title` (exceptions are
caught and reported as `false`). -/
def UserSessionManager.update_conversation_title (env : Env) (db : DbState)
    (cid first_message : String) : Bool × DbState :=
  let r := ConversationService.update_conversation_title db env.now cid
    (truncateTitle first_message)
  (r.1.isSome, r.2)

/-- Embeds the importance keyword list of
`UserSessionManager._calculate_importance`. -/
def important_keywords : List String :=
  ["重要", "紧急", "关键", "必须", "请", "谢谢"]

/-- Tests whether the first character list begins the second one. -/
def listStarts : List Char → List Char → Bool
  | [], _ => true
  | _ :: _, [] => false
  | a :: as, b :: bs => a == b && listStarts as bs

/-- Tests whether the first character list occurs contiguously inside the
second one. -/
def listHasSub (n : List Char) : List Char → Bool
  | [] => n.isEmpty
  | b :: bs => listStarts n (b :: bs) || listHasSub n bs

/-- Python substring membership test (`keyword in content`). -/
def containsSub (needle haystack : String) : Bool :=
  listHasSub needle.toList haystack.toList

/-- Embeds `UserSessionManager._calculate_importance`, in tenths: base 1.0,
role weight (system 1.0, user 0.8, model 0.6, other 0.5), a length band
bonus and a flat keyword bonus, capped at 2.0. -/
def UserSessionManager.calculate_importance (role content : String) : Nat :=
  let imp := 10 + (if role = "system" then 10
                   else if role = "user" then 8
                   else if role = "model" then 6
                   else 5)
  let len := content.length
  let imp := imp + (if 50 ≤ len ∧ len ≤ 500 then 2
                    else if 500 < len then 1
                    else 0)
  let imp := imp +
    (if important_keywords.any (fun k => containsSub k content) then 1
     else 0)
  min imp 20

/-- The `ChatMessage` value built inside `UserSessionManager.add_message`:
assistant and system messages are stamped one second after the current
instant so they sort strictly after the user turn. -/
def mkChatMessage (env : Env) (role content : String) (tokens : Int) :
    ChatMessage :=
  { role := role
    content := content
    timestamp := if role = "user" then env.now else env.now + 1
    tokens := tokens
    importance := UserSessionManager.calculate_importance role content }

/-- Embeds `UserSessionManager._handle_round_limit` (rollover): generate
the folded summary, persist it, then clear the window, zero the token
total and install the new summary on the session. Every failure inside is
caught, and `generate_summary` itself never raises, so rollover always
completes. -/
def UserSessionManager.handle_round_limit (env : Env) (db : DbState)
    (s : UserSession) : UserSession × DbState :=
  let old_summary := s.summary
  let new_summary := SummaryService.generate_summary env s.get_history
    old_summary
  let db' := (UserSessionManager.save_conversation_summary env db
    s.conversation_id new_summary).2
  ({ s with messages := [], total_tokens := 0, summary := some new_summary },
   db')

/-- Message id generated inside `add_message` (`msg_` + uuid hex + user
id). -/
def messageId (env : Env) (user_id : Int) : String :=
  "msg_" ++ env.uuidHex ++ "_" ++ toString user_id

/-- Body of `UserSessionManager.add_message` after `get_user_session`
succeeded with session `s₀` and state `st₁`: append the message in memory,
persist it, update the title when this is the first user message of the
window, roll over when the round count exceeds the limit, and write the
session back to the cache. None of these sub-steps raises. -/
def UserSessionManager.add_message_core (env : Env) (st₁ : SMState)
    (s₀ : UserSession) (user_id : Int) (role content : String)
    (tokens : Int) : UserSession × SMState :=
  let msg := mkChatMessage env role content tokens
  let s₁ := { s₀ with
    messages := s₀.messages ++ [msg]
    total_tokens := s₀.total_tokens + tokens
    last_activity := env.now }
  let db₁ := (UserSessionManager.save_message_to_db env st₁.db
    s₁.conversation_id (messageId env user_id) role content tokens).2
  let db₂ := if role = "user" ∧ s₁.get_rounds = 1
             then (UserSessionManager.update_conversation_title env db₁
               s₁.conversation_id content).2
             else db₁
  let r := if s₁.get_rounds > s₁.max_rounds
           then UserSessionManager.handle_round_limit env db₂ s₁
           else (s₁, db₂)
  let cache' := UserSessionManager.save_user_session env st₁.cache r.1
  (r.1, { cache := cache', db := r.2 })

/-- Embeds `UserSessionManager.add_message`: load or construct the session
via `get_user_session` (whose `ValueError`s are re-raised by the outer
handler) and run the message pipeline, which never raises. -/
def UserSessionManager.add_message (env : Env) (st : SMState)
    (user_id : Int) (cid : String) (role content : String) (tokens : Int) :
    Except String (UserSession × SMState) :=
  match UserSessionManager.get_user_session env st user_id cid with
  | .error e => .error e
  | .ok (s₀, st₁) =>
    .ok (UserSessionManager.add_message_core env st₁ s₀ user_id role
      content tokens)

/-- Embeds `UserSessionManager.clear_session`: remove the cache entry only
(the fallback map entry and its expiry record when the backend is down or
unavailable, the backend key otherwise); the durable store is untouched. -/
def UserSessionManager.clear_session (c : RedisClient) (fails : Bool)
    (cid : String) : RedisClient :=
  if c.use_redis && !fails then
    let store := c.redis_store.filter (fun p => !(p.1 == sessionKey cid))
    { c with redis_store := store }
  else
    let mem := c.memory_cache.filter (fun p => !(p.1 == sessionKey cid))
    let exp := c.memory_cache_expiry.filter
      (fun p => !(p.1 == sessionKey cid))
    { c with memory_cache := mem, memory_cache_expiry := exp }

/-- The successful result of a session-manager call, when there is one
(`ValueError`s map to `none`). -/
def okResult (e : Except String (UserSession × SMState)) :
    Option (UserSession × SMState) :=
  match e with
  | .ok p => some p
  | .error _ => none

/-- The session returned by a successful session-manager call. -/
def okSession (e : Except String (UserSession × SMState)) :
    Option UserSession :=
  (okResult e).map (fun p => p.1)

theorem okSession_eq {e : Except String (UserSession × SMState)}
    {s₀ : UserSession} (h : okSession e = some s₀) :
    ∃ st₁, e = .ok (s₀, st₁) := by
  cases e with
  | ok p =>
    simp [okSession, okResult] at h
    exact ⟨p.2, by rw [← h]⟩
  | error _ => simp [okSession, okResult] at h

theorem update_title_keeps_messages (env : Env) (db : DbState)
    (cid fm : String) :
    (UserSessionManager.update_conversation_title env db cid fm).2.messages
      = db.messages := by
  simp only [UserSessionManager.update_conversation_title,
    ConversationService.update_conversation_title]
  cases ConversationService.get_conversation db cid <;> rfl

theorem update_summary_keeps_messages (env : Env) (db : DbState)
    (cid sm : String) :
    (UserSessionManager.save_conversation_summary env db cid sm).2.messages
      = db.messages := by
  simp only [UserSessionManager.save_conversation_summary,
    ConversationService.update_conversation_summary]
  cases ConversationService.get_conversation db cid <;> rfl

theorem round_limit_keeps_messages (env : Env) (db : DbState)
    (s : UserSession) :
    (UserSessionManager.handle_round_limit env db s).2.messages
      = db.messages := by
  simp only [UserSessionManager.handle_round_limit]
  exact update_summary_keeps_messages env db s.conversation_id _

theorem save_message_appends (env : Env) (db : DbState)
    (cid mid role content : String) (tokens : Int)
    (hs : env.dbSaveMessageFails = false)
    (hc : env.dbCommitFails = false) :
    (UserSessionManager.save_message_to_db env db cid mid role content
      tokens).2.messages
      = db.messages ++
        [{ conversation_id := cid
           message_id := mid
           role := UserSessionManager.role_map role
           content := content
           tokens := tokens
           importance := 10
           created_at := if UserSessionManager.role_map role
               = MessageRole.user then env.now else env.now + 1 }] := by
  simp [UserSessionManager.save_message_to_db,
    ConversationService.save_message, hs, hc]

theorem save_message_fail_keeps_messages (env : Env) (db : DbState)
    (cid mid role content : String) (tokens : Int)
    (hs : env.dbSaveMessageFails = true) :
    (UserSessionManager.save_message_to_db env db cid mid role content
      tokens).2.messages = db.messages := by
  simp only [UserSessionManager.save_message_to_db,
    ConversationService.save_message, hs]
  cases env.dbCommitFails <;> rfl

theorem cleanup_use_redis (c : RedisClient) (now : Nat) :
    (c.cleanup_expired_memory_cache now).use_redis = c.use_redis := rfl

theorem get_use_redis (c : RedisClient) (fails : Bool) (now : Nat)
    (key : String) : ((c.get fails now key).2).use_redis = c.use_redis := by
  simp only [RedisClient.get]
  by_cases h1 : c.use_redis
  · cases fails <;> simp [h1, cleanup_use_redis]
  · simp [h1, cleanup_use_redis]

theorem setex_use_redis (c : RedisClient) (fails : Bool) (now ttl : Nat)
    (key : String) (v : SessionDict) :
    (c.setex fails now key ttl v).use_redis = c.use_redis := by
  simp only [RedisClient.setex]
  by_cases h1 : c.use_redis && !fails
  · simp [h1]
  · simp [h1, cleanup_use_redis]

theorem get_user_session_shape {env : Env} {st : SMState} {uid : Int}
    {cid : String} {s₀ : UserSession} {st₁ : SMState}
    (h : okResult (UserSessionManager.get_user_session env st uid cid)
      = some (s₀, st₁)) :
    st₁.db = st.db ∧ st₁.cache.use_redis = st.cache.use_redis ∧ cid ≠ "" := by
  by_cases hc : cid = ""
  · simp [UserSessionManager.get_user_session, hc, okResult] at h
  · rw [UserSessionManager.get_user_session, if_neg hc] at h
    rcases hg : st.cache.get env.redisGetFails env.now (sessionKey cid) with
      ⟨r, c₁⟩
    have hc₁ : c₁.use_redis = st.cache.use_redis := by
      have := congrArg (fun q => q.2.use_redis) hg
      simpa [get_use_redis] using this.symm
    rw [hg] at h
    cases r with
    | some d =>
      simp only [okResult, Option.some.injEq, Prod.mk.injEq] at h
      refine ⟨?_, ?_, hc⟩
      · rw [← h.2]
      · rw [← h.2]
        simpa [UserSessionManager.save_user_session, setex_use_redis]
          using hc₁
    | none =>
      by_cases hex : UserSessionManager.conversation_exists st.db cid
      · simp only [hex, if_true, okResult, Option.some.injEq,
          Prod.mk.injEq] at h
        refine ⟨?_, ?_, hc⟩
        · rw [← h.2]
        · rw [← h.2]
          exact hc₁
      · simp [hex, okResult] at h

/-- C7: for every session `s`, deserializing its serialized form yields a
session equal to `s`: identical message list (role, content, timestamp,
tokens, importance for each entry), `total_tokens`, `last_activity`,
`max_tokens`, `max_rounds` and `summary` — `UserSession.from_dict
(s.to_dict) = s`. -/
theorem c7_serialization_roundtrip (s : UserSession) :
    UserSession.from_dict (UserSession.to_dict s) = s :=
  from_dict_to_dict s

/-- C10: a rollover mutates only the session's `messages`, `total_tokens`
and `summary` fields — `user_id`, `conversation_id`, `max_tokens`,
`max_rounds` and `last_activity` are identical before and after
`_handle_round_limit` — and the handler never deletes the cache entry: the
cache component produced by the `add_message` body is exactly a
write-back (`save_user_session`, i.e. `setex`) of the resulting session
into the cache as it stood before the handler ran. -/
theorem c10_rollover_frame (env : Env) (db : DbState) (s : UserSession)
    (env' : Env) (st₁ : SMState) (s₀ : UserSession) (uid : Int)
    (role content : String) (tokens : Int) :
    (UserSessionManager.handle_round_limit env db s).1.user_id = s.user_id ∧
    (UserSessionManager.handle_round_limit env db s).1.conversation_id
      = s.conversation_id ∧
    (UserSessionManager.handle_round_limit env db s).1.max_tokens
      = s.max_tokens ∧
    (UserSessionManager.handle_round_limit env db s).1.max_rounds
      = s.max_rounds ∧
    (UserSessionManager.handle_round_limit env db s).1.last_activity
      = s.last_activity ∧
    (UserSessionManager.add_message_core env' st₁ s₀ uid role content
        tokens).2.cache
      = UserSessionManager.save_user_session env' st₁.cache
          (UserSessionManager.add_message_core env' st₁ s₀ uid role content
            tokens).1 :=
  ⟨rfl, rfl, rfl, rfl, rfl, rfl⟩

/-- C2: rollover fires during `add_message` exactly when the number of
user-role messages in the window (after the append) is strictly greater
than `max_rounds` — assistant and system messages do not count — and when
it fires the returned session has an empty message list, `total_tokens`
zero and a non-null summary; when the count is within the limit the window
is kept (the appended list is returned unchanged), so no rollover
happened. -/
theorem c2_rollover_exactly_on_round_breach (env : Env) (st : SMState)
    (uid : Int) (cid role content : String) (tokens : Int)
    (s₀ : UserSession)
    (h : okSession (UserSessionManager.get_user_session env st uid cid)
      = some s₀) :
    ((((s₀.messages ++ [mkChatMessage env role content tokens]).filter
        (fun m => m.role == "user")).length > s₀.max_rounds →
      (okSession (UserSessionManager.add_message env st uid cid role
          content tokens)).map
          (fun s => (s.messages, s.total_tokens, s.summary.isSome))
        = some ([], 0, true))) ∧
    (((s₀.messages ++ [mkChatMessage env role content tokens]).filter
        (fun m => m.role == "user")).length ≤ s₀.max_rounds →
      (okSession (UserSessionManager.add_message env st uid cid role
          content tokens)).map (fun s => s.messages)
        = some (s₀.messages ++ [mkChatMessage env role content tokens])) := by
  obtain ⟨st₁, he⟩ := okSession_eq h
  constructor
  · intro hcond
    have hcond' : s₀.max_rounds <
        (s₀.messages.filter (fun m => m.role == "user")).length +
          (([mkChatMessage env role content tokens]).filter
            (fun m => m.role == "user")).length := by
      simpa using hcond
    simp [UserSessionManager.add_message, he, okSession, okResult,
      UserSessionManager.add_message_core, UserSession.get_rounds,
      UserSessionManager.handle_round_limit, hcond']
  · intro hcond
    have hc2 : ¬ (s₀.max_rounds <
        (s₀.messages.filter (fun m => m.role == "user")).length +
          (([mkChatMessage env role content tokens]).filter
            (fun m => m.role == "user")).length) := by
      refine Nat.not_lt.mpr ?_
      simpa using hcond
    simp [UserSessionManager.add_message, he, okSession, okResult,
      UserSessionManager.add_message_core, UserSession.get_rounds, hc2]

/-- Environment for the C2 witness: time 100, no failures, the LLM
unavailable (irrelevant: rollover falls back). -/
def envC2 : Env := { now := 100 }

/-- Serialized cached session for the C2 witness: empty window,
`max_rounds` 0 so the first user message breaches the limit. -/
def dictC2 : SessionDict :=
  { user_id := 1, conversation_id := "c", messages := [], total_tokens := 0,
    last_activity := 50, max_tokens := 4000, max_rounds := 0,
    summary := none }

/-- Initial state for the C2 witness: the backend cache holds the session
under its key, unexpired. -/
def stC2 : SMState :=
  { cache := { use_redis := true,
               redis_store := [("conversation:c",
                 { value := dictC2, expiresAt := 650 })] }
    db := {} }

/-- Session the C2 witness expects `get_user_session` to return. -/
def s0C2 : UserSession :=
  { user_id := 1, conversation_id := "c", messages := [], total_tokens := 0,
    last_activity := 100, max_tokens := 4000, max_rounds := 0,
    summary := none }

/-- Witness for C2 at a concrete input: one user message over a 0-round
limit fires rollover and the result has an empty window, zero tokens and a
summary. -/
theorem c2_rollover_witness :
    (okSession (UserSessionManager.add_message envC2 stC2 1 "c" "user" "hi"
        5)).map (fun s => (s.messages, s.total_tokens, s.summary.isSome))
      = some ([], 0, true) :=
  (c2_rollover_exactly_on_round_breach envC2 stC2 1 "c" "user" "hi" 5 s0C2
    (by decide)).1 (by decide)

theorem last_of_append_single {α : Type} (l : List α) (a : α) :
    (l ++ [a]).getLast? = some a := by
  induction l with
  | nil => rfl
  | cons b t ih =>
    rw [List.cons_append, List.getLast?_cons, ih]
    cases t <;> rfl

/-- The message log produced by the `add_message` body: exactly one row is
appended, carrying the translated role, when neither database failure flag
is set. -/
theorem add_message_core_db_messages (env : Env) (st₁ : SMState)
    (s₀ : UserSession) (uid : Int) (role content : String) (tokens : Int)
    (hs : env.dbSaveMessageFails = false)
    (hc : env.dbCommitFails = false) :
    (UserSessionManager.add_message_core env st₁ s₀ uid role content
      tokens).2.db.messages
    = st₁.db.messages ++
      [{ conversation_id := s₀.conversation_id
         message_id := messageId env uid
         role := UserSessionManager.role_map role
         content := content
         tokens := tokens
         importance := 10
         created_at := if UserSessionManager.role_map role
             = MessageRole.user then env.now else env.now + 1 }] := by
  simp only [UserSessionManager.add_message_core]
  split
  · rw [round_limit_keeps_messages]
    split
    · rw [update_title_keeps_messages,
        save_message_appends _ _ _ _ _ _ _ hs hc]
    · rw [save_message_appends _ _ _ _ _ _ _ hs hc]
  · split
    · rw [update_title_keeps_messages,
        save_message_appends _ _ _ _ _ _ _ hs hc]
    · rw [save_message_appends _ _ _ _ _ _ _ hs hc]

/-- C9: when `add_message` persists a message, any role string outside
user / model / assistant — including `system` — is stored in the durable
log with the `user` role, only `model` and `assistant` map to the durable
`assistant` role, and the in-memory window entry keeps the original role
string (observed on the returned session whenever the append does not
trigger a rollover that clears the window). -/
theorem c9_role_normalization (env : Env) (st : SMState) (uid : Int)
    (cid role content : String) (tokens : Int) (s₀ : UserSession)
    (hs : env.dbSaveMessageFails = false)
    (hc : env.dbCommitFails = false)
    (h : okSession (UserSessionManager.get_user_session env st uid cid)
      = some s₀) :
    (okResult (UserSessionManager.add_message env st uid cid role content
        tokens)).map
        (fun p => p.2.db.messages.getLast?.map (fun m => m.role))
      = some (some (UserSessionManager.role_map role)) ∧
    (role ≠ "user" → role ≠ "model" → role ≠ "assistant" →
      UserSessionManager.role_map role = MessageRole.user) ∧
    UserSessionManager.role_map "system" = MessageRole.user ∧
    UserSessionManager.role_map "model" = MessageRole.assistant ∧
    UserSessionManager.role_map "assistant" = MessageRole.assistant ∧
    (((s₀.messages ++ [mkChatMessage env role content tokens]).filter
        (fun m => m.role == "user")).length ≤ s₀.max_rounds →
      (okSession (UserSessionManager.add_message env st uid cid role
          content tokens)).map
          (fun s => s.messages.getLast?.map (fun m => m.role))
        = some (some role)) := by
  obtain ⟨st₁, he⟩ := okSession_eq h
  refine ⟨?_, ?_, by decide, by decide, by decide, ?_⟩
  · simp only [UserSessionManager.add_message, he, okResult, Option.map]
    rw [add_message_core_db_messages env st₁ s₀ uid role content tokens hs
      hc, last_of_append_single]
  · intro h1 h2 h3
    simp [UserSessionManager.role_map, h1, h2, h3]
  · intro hcond
    have hc2 : ¬ (s₀.max_rounds <
        (s₀.messages.filter (fun m => m.role == "user")).length +
          (([mkChatMessage env role content tokens]).filter
            (fun m => m.role == "user")).length) := by
      refine Nat.not_lt.mpr ?_
      simpa using hcond
    simp [UserSessionManager.add_message, he, okSession, okResult,
      UserSessionManager.add_message_core, UserSession.get_rounds, hc2,
      last_of_append_single]
    simp [mkChatMessage]

/-- Environment for the C9 witness. -/
def envC9 : Env := { now := 100 }

/-- State for the C9 witness: no cache entry, one live conversation, so
`get_user_session` cold-loads an empty-window session. -/
def stC9 : SMState :=
  { cache := { use_redis := true }
    db := { conversations := [{ id := "c", user_id := 1, title := "t" }] } }

/-- Session the C9 witness expects from the cold load. -/
def s0C9 : UserSession :=
  { user_id := 1, conversation_id := "c", messages := [], total_tokens := 0,
    last_activity := 100, max_tokens := 4000, max_rounds := 10,
    summary := none }

/-- Witness for C9 at a concrete input: a `system` message is persisted
with the durable `user` role while the in-memory window keeps the string
`system`. -/
theorem c9_role_witness :
    (okResult (UserSessionManager.add_message envC9 stC9 1 "c" "system"
        "note" 2)).map
        (fun p => p.2.db.messages.getLast?.map (fun m => m.role))
      = some (some MessageRole.user) ∧
    (okSession (UserSessionManager.add_message envC9 stC9 1 "c" "system"
        "note" 2)).map
        (fun s => s.messages.getLast?.map (fun m => m.role))
      = some (some "system") :=
  ⟨(c9_role_normalization envC9 stC9 1 "c" "system" "note" 2 s0C9 rfl rfl
      (by decide)).1,
   (c9_role_normalization envC9 stC9 1 "c" "system" "note" 2 s0C9 rfl rfl
      (by decide)).2.2.2.2.2 (by decide)⟩

/-- Environment for C1: the summarizer LLM call fails (`llmSummary =
none`), nothing else fails. -/
def envC1 : Env := { now := 100 }

/-- Cached session for C1: empty window, `max_rounds` 0, no summary. -/
def dictC1 : SessionDict :=
  { user_id := 1, conversation_id := "c", messages := [], total_tokens := 0,
    last_activity := 50, max_tokens := 4000, max_rounds := 0,
    summary := none }

/-- State for C1: the cache serves `dictC1`, the durable store holds the
conversation. -/
def stC1 : SMState :=
  { cache := { use_redis := true,
               redis_store := [("conversation:c",
                 { value := dictC1, expiresAt := 650 })] }
    db := { conversations := [{ id := "c", user_id := 1, title := "t" }] } }

/-- Counterexample to C1: the round limit is breached and the summarizer
call fails (`envC1.llmSummary = none`), yet `add_message` does NOT leave
the session with its pre-rollover window and unchanged summary — the
window is cleared, `total_tokens` is reset and the summary is replaced by
the fixed fallback text, because `generate_summary` swallows the failure
and returns a fallback string instead of raising. -/
theorem c1_counterexample :
    (okSession (UserSessionManager.add_message envC1 stC1 1 "c" "user" "hi"
        5)).map (fun s => (s.messages, s.total_tokens, s.summary))
      = some ([], 0, some "对话摘要生成失败") := by decide

/-- C1 amended: when the summarizer LLM call fails during rollover,
`generate_summary` absorbs the failure and returns the previous summary
(when it is a non-empty string) or the fixed failure text; rollover then
still completes — the window is cleared, `total_tokens` reset to 0 and the
session summary replaced by that fallback — rather than leaving the
session pre-rollover. -/
theorem c1_rollover_fallback (env : Env) (db : DbState) (s : UserSession)
    (hfail : env.llmSummary = none) :
    (UserSessionManager.handle_round_limit env db s).1.messages = [] ∧
    (UserSessionManager.handle_round_limit env db s).1.total_tokens = 0 ∧
    ((s.summary = none ∨ s.summary = some "") →
      (UserSessionManager.handle_round_limit env db s).1.summary
        = some "对话摘要生成失败") ∧
    (∀ os, s.summary = some os → os ≠ "" →
      (UserSessionManager.handle_round_limit env db s).1.summary
        = some os) := by
  refine ⟨rfl, rfl, ?_, ?_⟩
  · intro hsum
    rcases hsum with hh | hh <;>
      simp [UserSessionManager.handle_round_limit,
        SummaryService.generate_summary, hfail, hh]
  · intro os hos hne
    simp [UserSessionManager.handle_round_limit,
      SummaryService.generate_summary, hfail, hos, hne]

/-- Session used by the C1 witness. -/
def sC1w : UserSession :=
  { user_id := 1, conversation_id := "c",
    messages := [{ role := "user", content := "hi", timestamp := 100,
                   tokens := 5, importance := 18 }],
    total_tokens := 5, last_activity := 100, max_tokens := 4000,
    max_rounds := 0, summary := none }

/-- Durable state used by the C1 witness. -/
def dbC1w : DbState :=
  { conversations := [{ id := "c", user_id := 1, title := "t" }] }

/-- Witness for the amended C1 at a concrete input: a failed summarizer
still clears the window and installs the fallback summary. -/
theorem c1_rollover_fallback_witness :
    (UserSessionManager.handle_round_limit envC1 dbC1w sC1w).1.messages
      = [] ∧
    (UserSessionManager.handle_round_limit envC1 dbC1w sC1w).1.summary
      = some "对话摘要生成失败" :=
  ⟨(c1_rollover_fallback envC1 dbC1w sC1w rfl).1,
   (c1_rollover_fallback envC1 dbC1w sC1w rfl).2.2.1 (Or.inl rfl)⟩

theorem okResult_eq {e : Except String (UserSession × SMState)}
    {p : UserSession × SMState} (h : okResult e = some p) : e = .ok p := by
  cases e with
  | ok q =>
    simp [okResult] at h
    rw [h]
  | error _ => simp [okResult] at h

/-- Projection of the durable counters (`message_count`, `total_tokens`)
of every conversation record. -/
def convCounters (db : DbState) : List (String × Int × Int) :=
  db.conversations.map (fun c => (c.id, c.message_count, c.total_tokens))

theorem save_message_to_db_convs (env : Env) (db : DbState)
    (cid mid role content : String) (tokens : Int) :
    (UserSessionManager.save_message_to_db env db cid mid role content
      tokens).2.conversations = db.conversations := by
  simp only [UserSessionManager.save_message_to_db,
    ConversationService.save_message]
  cases env.dbCommitFails <;> cases env.dbSaveMessageFails <;> rfl

theorem update_title_counters (env : Env) (db : DbState)
    (cid fm : String) :
    convCounters
      (UserSessionManager.update_conversation_title env db cid fm).2
      = convCounters db := by
  simp only [UserSessionManager.update_conversation_title,
    ConversationService.update_conversation_title]
  cases ConversationService.get_conversation db cid with
  | none => rfl
  | some c =>
    simp only [convCounters, List.map_map]
    refine List.map_congr_left ?_
    intro x _
    simp only [Function.comp]
    by_cases hx : (x.id == cid && !x.is_deleted) = true <;> simp [hx]

theorem update_summary_counters (env : Env) (db : DbState)
    (cid sm : String) :
    convCounters
      (UserSessionManager.save_conversation_summary env db cid sm).2
      = convCounters db := by
  simp only [UserSessionManager.save_conversation_summary,
    ConversationService.update_conversation_summary]
  cases ConversationService.get_conversation db cid with
  | none => rfl
  | some c =>
    simp only [convCounters, List.map_map]
    refine List.map_congr_left ?_
    intro x _
    simp only [Function.comp]
    by_cases hx : (x.id == cid && !x.is_deleted) = true <;> simp [hx]

theorem round_limit_counters (env : Env) (db : DbState) (s : UserSession) :
    convCounters (UserSessionManager.handle_round_limit env db s).2
      = convCounters db := by
  simp only [UserSessionManager.handle_round_limit]
  exact update_summary_counters env db s.conversation_id _

theorem add_message_core_counters (env : Env) (st₁ : SMState)
    (s₀ : UserSession) (uid : Int) (role content : String) (tokens : Int) :
    convCounters (UserSessionManager.add_message_core env st₁ s₀ uid role
      content tokens).2.db = convCounters st₁.db := by
  simp only [UserSessionManager.add_message_core]
  split
  · rw [round_limit_counters]
    split
    · rw [update_title_counters]
      simp [convCounters, save_message_to_db_convs]
    · simp [convCounters, save_message_to_db_convs]
  · split
    · rw [update_title_counters]
      simp [convCounters, save_message_to_db_convs]
    · simp [convCounters, save_message_to_db_convs]

/-- Environment for C3. -/
def envC3 : Env := { now := 100 }

/-- State for C3: no cache entry, one live conversation with zero durable
counters and an empty durable log. -/
def stC3 : SMState :=
  { cache := { use_redis := true }
    db := { conversations := [{ id := "c", user_id := 1, title := "t" }] } }

/-- Session the C3 witness expects from the cold load. -/
def s0C3 : UserSession :=
  { user_id := 1, conversation_id := "c", messages := [], total_tokens := 0,
    last_activity := 100, max_tokens := 4000, max_rounds := 10,
    summary := none }

/-- Counterexample to C3: after `add_message` appends one message, the
durable log for conversation `c` holds 1 message with 5 tokens, but the
durable record still reads `message_count = 0`, `total_tokens = 0` — the
counters are not updated with the append. -/
theorem c3_counterexample :
    (okResult (UserSessionManager.add_message envC3 stC3 1 "c" "user" "hi"
        5)).map
        (fun p => (p.2.db.messages.length,
          (ConversationService.get_conversation p.2.db "c").map
            (fun c => (c.message_count, c.total_tokens))))
      = some (1, some (0, 0)) := by decide

/-- C3 amended: the append performed by `add_message` leaves every durable
conversation record's `message_count` and `total_tokens` exactly as they
were — `add_message` never calls `update_conversation_stats`, so the
durable counters are not kept in sync with the persisted messages by this
path. -/
theorem c3_counters_never_updated (env : Env) (st : SMState) (uid : Int)
    (cid role content : String) (tokens : Int) (s₀ : UserSession)
    (st₁ : SMState)
    (h : okResult (UserSessionManager.get_user_session env st uid cid)
      = some (s₀, st₁)) :
    (okResult (UserSessionManager.add_message env st uid cid role content
        tokens)).map (fun p => convCounters p.2.db)
      = some (convCounters st.db) := by
  have he := okResult_eq h
  have hdb := (get_user_session_shape h).1
  simp only [UserSessionManager.add_message, he, okResult, Option.map]
  rw [add_message_core_counters, hdb]

/-- Witness for the amended C3 at a concrete input. -/
theorem c3_counters_witness :
    (okResult (UserSessionManager.add_message envC3 stC3 1 "c" "user" "hi"
        5)).map (fun p => convCounters p.2.db)
      = some (convCounters stC3.db) :=
  c3_counters_never_updated envC3 stC3 1 "c" "user" "hi" 5 s0C3 stC3
    (by decide)

theorem add_message_core_messages_fail (env : Env) (st₁ : SMState)
    (s₀ : UserSession) (uid : Int) (role content : String) (tokens : Int)
    (hfail : env.dbSaveMessageFails = true) :
    (UserSessionManager.add_message_core env st₁ s₀ uid role content
      tokens).2.db.messages = st₁.db.messages := by
  simp only [UserSessionManager.add_message_core]
  split
  · rw [round_limit_keeps_messages]
    split
    · rw [update_title_keeps_messages,
        save_message_fail_keeps_messages _ _ _ _ _ _ _ hfail]
    · rw [save_message_fail_keeps_messages _ _ _ _ _ _ _ hfail]
  · split
    · rw [update_title_keeps_messages,
        save_message_fail_keeps_messages _ _ _ _ _ _ _ hfail]
    · rw [save_message_fail_keeps_messages _ _ _ _ _ _ _ hfail]

/-- Environment for C5: the database insert performed while persisting the
message raises (and is rolled back); nothing else fails. -/
def envC5 : Env := { now := 100, dbSaveMessageFails := true }

/-- State for C5: no cache entry, one live conversation, empty durable
log. -/
def stC5 : SMState :=
  { cache := { use_redis := true }
    db := { conversations := [{ id := "c", user_id := 1, title := "t" }] } }

/-- Session the C5 witness expects from the cold load. -/
def s0C5 : UserSession :=
  { user_id := 1, conversation_id := "c", messages := [], total_tokens := 0,
    last_activity := 100, max_tokens := 4000, max_rounds := 10,
    summary := none }

/-- Counterexample to C5: the durable append fails, yet `add_message`
returns successfully (`okResult` is `some`, i.e. no exception reaches the
caller) and the durable log is silently left empty — the failure is
swallowed inside the save path, not re-raised. -/
theorem c5_counterexample :
    (okResult (UserSessionManager.add_message envC5 stC5 1 "c" "user" "hi"
        5)).map (fun p => p.2.db.messages)
      = some [] := by decide

/-- C5 amended: when persisting a message to the durable store fails
during `add_message`, the failure is caught and logged inside
`ConversationService.save_message` / `_save_message_to_db` (which report
it only through their return values, ignored by `add_message`); the call
completes normally and the durable log is left unchanged — append
failures are swallowed, never re-raised to the caller. -/
theorem c5_append_failure_swallowed (env : Env) (st : SMState) (uid : Int)
    (cid role content : String) (tokens : Int) (s₀ : UserSession)
    (st₁ : SMState)
    (hfail : env.dbSaveMessageFails = true)
    (h : okResult (UserSessionManager.get_user_session env st uid cid)
      = some (s₀, st₁)) :
    (okResult (UserSessionManager.add_message env st uid cid role content
        tokens)).isSome = true ∧
    (okResult (UserSessionManager.add_message env st uid cid role content
        tokens)).map (fun p => p.2.db.messages)
      = some st.db.messages := by
  have he := okResult_eq h
  have hdb := (get_user_session_shape h).1
  constructor
  · simp [UserSessionManager.add_message, he, okResult]
  · simp only [UserSessionManager.add_message, he, okResult, Option.map]
    rw [add_message_core_messages_fail _ _ _ _ _ _ _ hfail, hdb]

/-- Witness for the amended C5 at a concrete input. -/
theorem c5_append_failure_witness :
    (okResult (UserSessionManager.add_message envC5 stC5 1 "c" "user" "hi"
        5)).isSome = true ∧
    (okResult (UserSessionManager.add_message envC5 stC5 1 "c" "user" "hi"
        5)).map (fun p => p.2.db.messages)
      = some stC5.db.messages :=
  c5_append_failure_swallowed envC5 stC5 1 "c" "user" "hi" 5 s0C5 stC5 rfl
    (by decide)

/-- C8: whenever the cache holds an entry for a conversation id,
`get_user_session` returns the deserialized cached session (with
`last_activity` refreshed) without consulting the durable store — the
durable state is arbitrary and left untouched — and `add_message` keeps
appending to the durable log. In particular a soft-deleted conversation
whose cache entry is still live is served successfully (the witness
exercises exactly that: its durable store contains only a soft-deleted
record). -/
theorem c8_cache_hit_bypasses_store (env : Env) (st : SMState) (uid : Int)
    (cid role content : String) (tokens : Int) (d : SessionDict)
    (hcid : cid ≠ "")
    (hhit : (st.cache.get env.redisGetFails env.now (sessionKey cid)).1
      = some d)
    (hs : env.dbSaveMessageFails = false)
    (hc : env.dbCommitFails = false) :
    okSession (UserSessionManager.get_user_session env st uid cid)
      = some { UserSession.from_dict d with last_activity := env.now } ∧
    (okResult (UserSessionManager.get_user_session env st uid cid)).map
        (fun p => p.2.db)
      = some st.db ∧
    (okResult (UserSessionManager.add_message env st uid cid role content
        tokens)).map (fun p => p.2.db.messages.length)
      = some (st.db.messages.length + 1) := by
  rcases hg : st.cache.get env.redisGetFails env.now (sessionKey cid) with
    ⟨r, c₁⟩
  rw [hg] at hhit
  simp only at hhit
  subst hhit
  set s : UserSession :=
    { UserSession.from_dict d with last_activity := env.now } with hsdef
  set c₂ : RedisClient := UserSessionManager.save_user_session env c₁ s
    with hcdef
  have hg' : UserSessionManager.get_user_session env st uid cid
      = .ok (s, { st with cache := c₂ }) := by
    simp only [UserSessionManager.get_user_session, if_neg hcid, hg, hsdef,
      hcdef]
  refine ⟨?_, ?_, ?_⟩
  · simp [okSession, okResult, hg']
  · simp [okResult, hg']
  · simp only [UserSessionManager.add_message, hg', okResult, Option.map]
    rw [add_message_core_db_messages _ _ _ _ _ _ _ hs hc]
    simp

/-- Environment for the C8 witness. -/
def envC8 : Env := { now := 100 }

/-- Cached session dict for the C8 witness. -/
def dictC8 : SessionDict :=
  { user_id := 1, conversation_id := "c", messages := [], total_tokens := 0,
    last_activity := 50, max_tokens := 4000, max_rounds := 10,
    summary := none }

/-- State for the C8 witness: a live cache entry for `c`, while the
durable store holds only a soft-deleted record of `c`. -/
def stC8 : SMState :=
  { cache := { use_redis := true,
               redis_store := [("conversation:c",
                 { value := dictC8, expiresAt := 650 })] }
    db := { conversations := [{ id := "c", user_id := 1, title := "t",
                                is_deleted := true,
                                deleted_at := some 10 }] } }

/-- Witness for C8 at a concrete input: the soft-deleted conversation is
served from cache, the durable store is untouched by the read, and
`add_message` appends to its log. -/
theorem c8_cache_hit_witness :
    okSession (UserSessionManager.get_user_session envC8 stC8 1 "c")
      = some { user_id := 1, conversation_id := "c", messages := [],
               total_tokens := 0, last_activity := 100, max_tokens := 4000,
               max_rounds := 10, summary := none } ∧
    (okResult (UserSessionManager.get_user_session envC8 stC8 1 "c")).map
        (fun p => p.2.db)
      = some stC8.db ∧
    (okResult (UserSessionManager.add_message envC8 stC8 1 "c" "user" "hi"
        5)).map (fun p => p.2.db.messages.length)
      = some 1 :=
  c8_cache_hit_bypasses_store envC8 stC8 1 "c" "user" "hi" 5 dictC8
    (by decide) (by decide) rfl rfl

theorem find_of_map {α : Type} (p : α → Bool) (f : α → α) (l : List α)
    (hp : ∀ x, p (f x) = p x) :
    (l.map f).find? p = (l.find? p).map f := by
  induction l with
  | nil => rfl
  | cons a t ih =>
    by_cases h : p a = true
    · rw [List.map_cons, List.find?_cons_of_pos _ (by rw [hp]; exact h),
        List.find?_cons_of_pos _ h]
      rfl
    · rw [List.map_cons,
        List.find?_cons_of_neg _ (by rw [hp]; simpa using h),
        List.find?_cons_of_neg _ (by simpa using h), ih]

theorem get_conv_after_save_message (env : Env) (db : DbState)
    (cid mid role content : String) (tokens : Int) (cid' : String) :
    ConversationService.get_conversation
        (UserSessionManager.save_message_to_db env db cid mid role content
          tokens).2 cid'
      = ConversationService.get_conversation db cid' := by
  simp only [ConversationService.get_conversation,
    save_message_to_db_convs]

theorem title_after_update_title (db : DbState) (now : Nat) (cid t : String)
    (c : Conversation)
    (h : ConversationService.get_conversation db cid = some c) :
    (ConversationService.get_conversation
        (ConversationService.update_conversation_title db now cid t).2
        cid).map (fun x => x.title)
      = some t := by
  simp only [ConversationService.update_conversation_title, h]
  simp only [ConversationService.get_conversation] at h ⊢
  have hp : ∀ x : Conversation,
      ((fun y => y.id == cid && !y.is_deleted)
        (if (x.id == cid && !x.is_deleted) = true
         then { x with title := t, updated_at := now } else x))
      = (x.id == cid && !x.is_deleted) := by
    intro x
    by_cases hx : (x.id == cid && !x.is_deleted) = true <;> simp [hx]
  rw [find_of_map _ _ _ hp, h]
  have hc' : c.id = cid ∧ c.is_deleted = false := by
    simpa using List.find?_some h
  simp [hc'.1, hc'.2]

theorem title_pointwise_after_summary (db : DbState) (now : Nat)
    (cid sm cid' : String) :
    (ConversationService.get_conversation
        (ConversationService.update_conversation_summary db now cid sm).2
        cid').map (fun x => x.title)
      = (ConversationService.get_conversation db cid').map
          (fun x => x.title) := by
  simp only [ConversationService.update_conversation_summary]
  cases hg : ConversationService.get_conversation db cid with
  | none => rfl
  | some c =>
    simp only [ConversationService.get_conversation]
    have hp : ∀ x : Conversation,
        ((fun y => y.id == cid' && !y.is_deleted)
          (if (x.id == cid && !x.is_deleted) = true
           then { x with summary := some sm, updated_at := now } else x))
        = (x.id == cid' && !x.is_deleted) := by
      intro x
      by_cases hx : (x.id == cid && !x.is_deleted) = true <;> simp [hx]
    rw [find_of_map _ _ _ hp]
    cases hf : db.conversations.find?
        (fun y => y.id == cid' && !y.is_deleted) with
    | none => rfl
    | some x =>
      simp [hf]
      split <;> rfl

theorem round_limit_title_pointwise (env : Env) (db : DbState)
    (s : UserSession) (cid' : String) :
    (ConversationService.get_conversation
        (UserSessionManager.handle_round_limit env db s).2 cid').map
        (fun x => x.title)
      = (ConversationService.get_conversation db cid').map
          (fun x => x.title) := by
  simp only [UserSessionManager.handle_round_limit,
    UserSessionManager.save_conversation_summary]
  exact title_pointwise_after_summary db env.now s.conversation_id _ cid'

/-- Projection of the durable titles of every conversation record. -/
def convTitles (db : DbState) : List (String × String) :=
  db.conversations.map (fun c => (c.id, c.title))

theorem update_summary_titles (env : Env) (db : DbState)
    (cid sm : String) :
    convTitles (UserSessionManager.save_conversation_summary env db cid
      sm).2 = convTitles db := by
  simp only [UserSessionManager.save_conversation_summary,
    ConversationService.update_conversation_summary]
  cases ConversationService.get_conversation db cid with
  | none => rfl
  | some c =>
    simp only [convTitles, List.map_map]
    refine List.map_congr_left ?_
    intro x _
    simp only [Function.comp]
    by_cases hx : (x.id == cid && !x.is_deleted) = true <;> simp [hx]

theorem round_limit_titles (env : Env) (db : DbState) (s : UserSession) :
    convTitles (UserSessionManager.handle_round_limit env db s).2
      = convTitles db := by
  simp only [UserSessionManager.handle_round_limit]
  exact update_summary_titles env db s.conversation_id _

theorem save_message_titles (env : Env) (db : DbState)
    (cid mid role content : String) (tokens : Int) :
    convTitles (UserSessionManager.save_message_to_db env db cid mid role
      content tokens).2 = convTitles db := by
  simp only [convTitles, save_message_to_db_convs]

theorem add_message_core_titles_no_update (env : Env) (st₁ : SMState)
    (s₀ : UserSession) (uid : Int) (role content : String) (tokens : Int)
    (hcond : ¬(role = "user" ∧
      ((s₀.messages ++ [mkChatMessage env role content tokens]).filter
        (fun m => m.role == "user")).length = 1)) :
    convTitles (UserSessionManager.add_message_core env st₁ s₀ uid role
      content tokens).2.db = convTitles st₁.db := by
  simp only [UserSessionManager.add_message_core]
  split
  · rw [round_limit_titles]
    split
    · next hsp =>
        exfalso
        simp only [UserSession.get_rounds] at hsp
        exact hcond hsp
    · rw [save_message_titles]
  · split
    · next hsp =>
        exfalso
        simp only [UserSession.get_rounds] at hsp
        exact hcond hsp
    · rw [save_message_titles]

theorem add_message_core_title_set (env : Env) (st₁ : SMState)
    (s₀ : UserSession) (uid : Int) (role content : String) (tokens : Int)
    (hcond : role = "user" ∧
      ((s₀.messages ++ [mkChatMessage env role content tokens]).filter
        (fun m => m.role == "user")).length = 1)
    (c : Conversation)
    (hex : ConversationService.get_conversation st₁.db s₀.conversation_id
      = some c) :
    (ConversationService.get_conversation
        (UserSessionManager.add_message_core env st₁ s₀ uid role content
          tokens).2.db s₀.conversation_id).map (fun x => x.title)
      = some (truncateTitle content) := by
  simp only [UserSessionManager.add_message_core]
  split
  · rw [round_limit_title_pointwise]
    split
    · simp only [UserSessionManager.update_conversation_title]
      refine title_after_update_title _ env.now _ _ c ?_
      rw [get_conv_after_save_message]
      exact hex
    · next hneg =>
        exfalso
        simp only [UserSession.get_rounds] at hneg
        exact hneg hcond
  · split
    · simp only [UserSessionManager.update_conversation_title]
      refine title_after_update_title _ env.now _ _ c ?_
      rw [get_conv_after_save_message]
      exact hex
    · next hneg =>
        exfalso
        simp only [UserSession.get_rounds] at hneg
        exact hneg hcond

/-- First-call environment for the C4 counterexample (time 0). -/
def envC4a : Env := { now := 0 }

/-- Second-call environment for the C4 counterexample: 601 seconds later,
past the 600-second cache ttl, so the cache entry written by the first
call has expired and the second call cold-loads an empty window. -/
def envC4b : Env := { now := 601 }

/-- State for the C4 counterexample: empty cache, one live conversation
with the default title. -/
def stC4 : SMState :=
  { cache := { use_redis := true }
    db := { conversations := [{ id := "c", user_id := 1,
                                title := "新对话" }] } }

/-- Counterexample to C4: the first `add_message` (user message `u1`) sets
the durable title to `u1`; after the cache entry expires, a second user
`add_message` (`u2`) cold-loads an empty window, sees it as the first
user message of the window again, and updates the title a second time to
`u2` — the title is not set exactly once per conversation. -/
theorem c4_counterexample :
    ((okResult (UserSessionManager.add_message envC4a stC4 1 "c" "user"
        "u1" 1)).map
        (fun p => (ConversationService.get_conversation p.2.db "c").map
          (fun x => x.title))
      = some (some "u1")) ∧
    (((okResult (UserSessionManager.add_message envC4a stC4 1 "c" "user"
        "u1" 1)).bind
        (fun p => okResult (UserSessionManager.add_message envC4b p.2 1 "c"
          "user" "u2" 1))).map
        (fun p => (ConversationService.get_conversation p.2.db "c").map
          (fun x => x.title))
      = some (some "u2")) := by decide

/-- C4 amended: the durable title is updated by exactly those
`add_message` calls whose user-role message is the first user message of
the current in-memory window — after a rollover or a cache-expiry cold
load empties the window, the next user message updates the title again;
any call that is not such a first-window user message leaves every durable
title unchanged, and a first-window user call sets the title of the
session's conversation to the 30-character truncation of the content. -/
theorem c4_title_follows_window_state (env : Env) (st : SMState)
    (uid : Int) (cid role content : String) (tokens : Int)
    (s₀ : UserSession) (st₁ : SMState)
    (h : okResult (UserSessionManager.get_user_session env st uid cid)
      = some (s₀, st₁)) :
    (¬(role = "user" ∧
        ((s₀.messages ++ [mkChatMessage env role content tokens]).filter
          (fun m => m.role == "user")).length = 1) →
      (okResult (UserSessionManager.add_message env st uid cid role content
          tokens)).map (fun p => convTitles p.2.db)
        = some (convTitles st.db)) ∧
    (∀ c : Conversation,
      (role = "user" ∧
        ((s₀.messages ++ [mkChatMessage env role content tokens]).filter
          (fun m => m.role == "user")).length = 1) →
      ConversationService.get_conversation st.db s₀.conversation_id
        = some c →
      (okResult (UserSessionManager.add_message env st uid cid role content
          tokens)).map
          (fun p => (ConversationService.get_conversation p.2.db
            s₀.conversation_id).map (fun x => x.title))
        = some (some (truncateTitle content))) := by
  have he := okResult_eq h
  have hdb := (get_user_session_shape h).1
  constructor
  · intro hcond
    have hx := add_message_core_titles_no_update env st₁ s₀ uid role
      content tokens hcond
    simp [UserSessionManager.add_message, he, okResult, hx, hdb]
  · intro c hcond hc
    have hx := add_message_core_title_set env st₁ s₀ uid role content
      tokens hcond c (by rw [hdb]; exact hc)
    simp [UserSessionManager.add_message, he, okResult, hx]

/-- Environment for the C4 witness. -/
def envC4w : Env := { now := 5 }

/-- State for the C4 witness: empty cache, one live conversation. -/
def stC4w : SMState :=
  { cache := { use_redis := true }
    db := { conversations := [{ id := "c", user_id := 1,
                                title := "新对话" }] } }

/-- Session the C4 witness expects from the cold load. -/
def s0C4w : UserSession :=
  { user_id := 1, conversation_id := "c", messages := [], total_tokens := 0,
    last_activity := 5, max_tokens := 4000, max_rounds := 10,
    summary := none }

/-- Conversation record the C4 witness starts from. -/
def cC4w : Conversation := { id := "c", user_id := 1, title := "新对话" }

/-- Witness for the amended C4 at a concrete input: the first user message
of the window sets the title to its truncation. -/
theorem c4_title_witness :
    (okResult (UserSessionManager.add_message envC4w stC4w 1 "c" "user"
        "hello" 3)).map
        (fun p => (ConversationService.get_conversation p.2.db "c").map
          (fun x => x.title))
      = some (some (truncateTitle "hello")) :=
  (c4_title_follows_window_state envC4w stC4w 1 "c" "user" "hello" 3 s0C4w
      stC4w (by decide)).2 cC4w ⟨rfl, by decide⟩ (by decide)

theorem alookup_aset_self {α : Type} (l : List (String × α)) (k : String)
    (v : α) : alookup (aset l k v) k = some v := by
  simp [aset, alookup]

theorem aset_mem_key {α : Type} (l : List (String × α)) (k : String)
    (v : α) (p : String × α) (hp : p ∈ aset l k v) (hk : p.1 = k) :
    p.2 = v := by
  rcases List.mem_cons.mp hp with h | h
  · rw [h]
  · exfalso
    have hf := List.of_mem_filter h
    rw [hk] at hf
    simp at hf

theorem alookup_filter_key {α : Type} (l : List (String × α))
    (q : String × α → Bool) (k : String)
    (hq : ∀ p : String × α, p.1 = k → q p = true) :
    alookup (l.filter q) k = alookup l k := by
  induction l with
  | nil => rfl
  | cons a t ih =>
    by_cases hk : (a.1 == k) = true
    · rw [List.filter_cons_of_pos (hq a (by simpa using hk))]
      simp [alookup, hk]
    · cases hqa : q a
      · rw [List.filter_cons_of_neg (by simp [hqa])]
        simp [alookup, hk, ih]
      · rw [List.filter_cons_of_pos hqa]
        simp [alookup, hk, ih]

theorem cleanup_lookup (c : RedisClient) (now : Nat) (k : String)
    (v : SessionDict)
    (hm : alookup c.memory_cache k = some v)
    (he : ∀ p ∈ c.memory_cache_expiry, p.1 = k → ¬ p.2 < now) :
    alookup (c.cleanup_expired_memory_cache now).memory_cache k
      = some v := by
  have hknot : ((c.memory_cache_expiry.filter (fun p => p.2 < now)).map
      (fun p => p.1)).contains k = false := by
    rw [← Bool.not_eq_true]
    intro hcon
    obtain ⟨p, hpmem, hpk⟩ :=
      List.mem_map.mp (List.mem_of_elem_eq_true hcon)
    have h2 := List.mem_filter.mp hpmem
    exact he p h2.1 hpk (of_decide_eq_true h2.2)
  simp only [RedisClient.cleanup_expired_memory_cache]
  rw [alookup_filter_key]
  · exact hm
  · intro p hpk
    rw [hpk, hknot]
    rfl

theorem cleanup_expiry_mem (c : RedisClient) (now : Nat) (p : String × Nat)
    (hp : p ∈ (c.cleanup_expired_memory_cache now).memory_cache_expiry) :
    p ∈ c.memory_cache_expiry := (List.mem_filter.mp hp).1

theorem setex_fail_state (c : RedisClient) (now ttl : Nat) (k : String)
    (v : SessionDict) :
    (c.setex true now k ttl v).use_redis = c.use_redis ∧
    alookup (c.setex true now k ttl v).memory_cache k = some v ∧
    (∀ p ∈ (c.setex true now k ttl v).memory_cache_expiry,
      p.1 = k → p.2 = now + ttl) := by
  have hset : c.setex true now k ttl v
      = RedisClient.cleanup_expired_memory_cache
          { c with memory_cache := aset c.memory_cache k v
                   memory_cache_expiry :=
                     aset c.memory_cache_expiry k (now + ttl) } now := by
    simp [RedisClient.setex]
  rw [hset]
  refine ⟨rfl, ?_, ?_⟩
  · apply cleanup_lookup
    · exact alookup_aset_self _ _ _
    · intro p hp hpk
      rw [aset_mem_key _ _ _ p hp hpk]
      exact Nat.not_lt.mpr (Nat.le_add_right now ttl)
  · intro p hp hpk
    exact aset_mem_key _ _ _ p (cleanup_expiry_mem _ _ _ hp) hpk

theorem get_fail_memory (c : RedisClient) (now : Nat) (k : String)
    (v : SessionDict)
    (hur : c.use_redis = true)
    (hm : alookup c.memory_cache k = some v)
    (he : ∀ p ∈ c.memory_cache_expiry, p.1 = k → ¬ p.2 < now) :
    (c.get true now k).1 = some v := by
  simp [RedisClient.get, hur]
  exact cleanup_lookup c now k v hm he

/-- C6: when the cache backend raises a connection error on the
set-with-expiry call during `add_message`, `add_message` still returns
successfully (the value written falls back to the in-process map), and a
subsequent `get_session` for the same conversation within the ttl window
(while the backend is still failing on reads) returns a session with the
same user id, conversation id, message list, token total and summary from
the fallback store; the cache failures never raise to the caller of
either operation. -/
theorem c6_cache_failure_fallback (env₁ env₂ : Env) (st : SMState)
    (uid : Int) (cid role content : String) (tokens : Int)
    (hur : st.cache.use_redis = true)
    (hsf : env₁.redisSetexFails = true)
    (hgf : env₂.redisGetFails = true)
    (httl : env₂.now ≤ env₁.now + 600)
    (hcid : (okResult (UserSessionManager.add_message env₁ st uid cid role
        content tokens)).map (fun p => p.1.conversation_id) = some cid) :
    (okResult (UserSessionManager.add_message env₁ st uid cid role content
        tokens)).isSome = true ∧
    ((okResult (UserSessionManager.add_message env₁ st uid cid role content
        tokens)).bind
        (fun p => okResult (UserSessionManager.get_user_session env₂ p.2
          uid cid))).map
        (fun p => (p.1.user_id, p.1.conversation_id, p.1.messages,
          p.1.total_tokens, p.1.summary))
      = (okResult (UserSessionManager.add_message env₁ st uid cid role
          content tokens)).map
        (fun p => (p.1.user_id, p.1.conversation_id, p.1.messages,
          p.1.total_tokens, p.1.summary)) := by
  cases hg1 : UserSessionManager.get_user_session env₁ st uid cid with
  | error e =>
    rw [show UserSessionManager.add_message env₁ st uid cid role content
        tokens = .error e by
      simp [UserSessionManager.add_message, hg1]] at hcid
    simp [okResult] at hcid
  | ok p =>
    obtain ⟨s₀, st₁⟩ := p
    have hadd : UserSessionManager.add_message env₁ st uid cid role content
        tokens = .ok (UserSessionManager.add_message_core env₁ st₁ s₀ uid
          role content tokens) := by
      simp [UserSessionManager.add_message, hg1]
    rcases hcore : UserSessionManager.add_message_core env₁ st₁ s₀ uid role
      content tokens with ⟨s₂, st₂⟩
    rw [hcore] at hadd
    have hs2cid : s₂.conversation_id = cid := by
      rw [hadd] at hcid
      simpa [okResult] using hcid
    have hshape := get_user_session_shape
      (show okResult (UserSessionManager.get_user_session env₁ st uid cid)
        = some (s₀, st₁) by rw [hg1]; rfl)
    have hur1 : st₁.cache.use_redis = true := by rw [hshape.2.1, hur]
    have hcne : cid ≠ "" := hshape.2.2
    have hcache : st₂.cache = UserSessionManager.save_user_session env₁
        st₁.cache s₂ := by
      have h1 : (UserSessionManager.add_message_core env₁ st₁ s₀ uid role
          content tokens).2.cache
          = UserSessionManager.save_user_session env₁ st₁.cache
              (UserSessionManager.add_message_core env₁ st₁ s₀ uid role
                content tokens).1 := rfl
      rw [hcore] at h1
      exact h1
    have hcache' : st₂.cache
        = st₁.cache.setex true env₁.now (sessionKey cid) 600 s₂.to_dict := by
      rw [hcache]
      simp only [UserSessionManager.save_user_session, hsf, hs2cid]
    obtain ⟨hu2, hm2, he2⟩ := setex_fail_state st₁.cache env₁.now 600
      (sessionKey cid) s₂.to_dict
    have hur2 : st₂.cache.use_redis = true := by rw [hcache', hu2, hur1]
    have hm2' : alookup st₂.cache.memory_cache (sessionKey cid)
        = some s₂.to_dict := by rw [hcache']; exact hm2
    have he2' : ∀ q ∈ st₂.cache.memory_cache_expiry,
        q.1 = sessionKey cid → ¬ q.2 < env₂.now := by
      intro q hq hqk
      rw [hcache'] at hq
      rw [he2 q hq hqk]
      exact Nat.not_lt.mpr httl
    have hget2 : (st₂.cache.get env₂.redisGetFails env₂.now
        (sessionKey cid)).1 = some s₂.to_dict := by
      rw [hgf]
      exact get_fail_memory st₂.cache env₂.now (sessionKey cid) s₂.to_dict
        hur2 hm2' he2'
    rcases hg2 : st₂.cache.get env₂.redisGetFails env₂.now
      (sessionKey cid) with ⟨r₂, c₂⟩
    rw [hg2] at hget2
    simp only at hget2
    subst hget2
    have hgs2 : UserSessionManager.get_user_session env₂ st₂ uid cid
        = .ok ({ s₂ with last_activity := env₂.now },
               { st₂ with cache := UserSessionManager.save_user_session env₂ c₂ { s₂ with last_activity := env₂.now } }) := by
      simp only [UserSessionManager.get_user_session, if_neg hcne, hg2,
        from_dict_to_dict]
    constructor
    · simp [hadd, okResult]
    · rw [hadd]
      simp [okResult, hgs2]

/-- First-call environment for the C6 witness: `setex` raises. -/
def envC6a : Env := { now := 0, redisSetexFails := true }

/-- Second-call environment for the C6 witness: 500 seconds later (within
the 600-second ttl), the backend also raises on `get`. -/
def envC6b : Env := { now := 500, redisGetFails := true }

/-- State for the C6 witness: backend in use, empty cache, one live
conversation. -/
def stC6 : SMState :=
  { cache := { use_redis := true }
    db := { conversations := [{ id := "c", user_id := 1, title := "t" }] } }

/-- Witness for C6 at a concrete input: the write falls back to the
in-process map and the follow-up `get_session` serves the same session
content from it. -/
theorem c6_cache_failure_witness :
    (okResult (UserSessionManager.add_message envC6a stC6 1 "c" "user" "hi"
        5)).isSome = true ∧
    ((okResult (UserSessionManager.add_message envC6a stC6 1 "c" "user"
        "hi" 5)).bind
        (fun p => okResult (UserSessionManager.get_user_session envC6b p.2
          1 "c"))).map
        (fun p => (p.1.user_id, p.1.conversation_id, p.1.messages,
          p.1.total_tokens, p.1.summary))
      = (okResult (UserSessionManager.add_message envC6a stC6 1 "c" "user"
          "hi" 5)).map
        (fun p => (p.1.user_id, p.1.conversation_id, p.1.messages,
          p.1.total_tokens, p.1.summary)) :=
  c6_cache_failure_fallback envC6a envC6b stC6 1 "c" "user" "hi" 5 rfl rfl
    rfl (by decide) (by decide)

end SmartRag
